import Mathlib

/-!
Verification of the DriveDoc backend against its specification.

The JavaScript source is shallowly embedded: Mongoose documents become Lean
structures, database collections become lists, request handlers become pure
functions from a state and a request to a new state and a response, and
JavaScript `Date` values become `Int` millisecond counts since the epoch.  External effects (the payment gateway, web-push delivery, JWT
verification, calendar arithmetic of `setFullYear`) are passed in as explicit
parameters so the handlers stay executable.
-/

namespace DriveDoc

/-- `1000 * 60 * 60 * 24`, one day in milliseconds (src/models/Documents.js line 43). -/
def msPerDay : Int := 1000 * 60 * 60 * 24

/-- JavaScript `Math.ceil (a / b)` for an integer `a` and a positive integer `b`:
rounding the real quotient toward positive infinity. -/
def jsCeilDiv (a b : Int) : Int := -((-a) / b)

/-- The `status` enum of the document schema (src/models/Documents.js lines 29-33). -/
inductive DocStatus
  | valid
  | expiring
  | expired
deriving DecidableEq, Repr

/-- `Math.ceil((expiry - today) / (1000 * 60 * 60 * 24))`
(src/models/Documents.js line 43). -/
def daysUntilExpiry (expiry today : Int) : Int :=
  jsCeilDiv (expiry - today) msPerDay

/-- The status computation of the `pre-save` hook
(src/models/Documents.js lines 45-51): expired if `daysUntilExpiry < 0`,
expiring if `daysUntilExpiry <= 30`, valid otherwise. -/
def computeStatus (expiry today : Int) : DocStatus :=
  if daysUntilExpiry expiry today < 0 then .expired
  else if daysUntilExpiry expiry today ≤ 30 then .expiring
  else .valid

/-- A record of the `Document` collection (src/models/Documents.js).  The field
`dtype` embeds the schema field `type`, which is a reserved word in Lean. -/
structure Document where
  id : Nat
  user : Nat
  country : String
  dtype : String
  number : String
  issueDate : Option Int
  expiryDate : Int
  status : DocStatus
  createdAt : Int
deriving DecidableEq, Repr

/-- The `pre-save` middleware (src/models/Documents.js lines 40-54): runs on
`Document.create` and on `document.save()`, overwriting `status` with the value
computed from `expiryDate` and the current time. -/
def documentPreSave (doc : Document) (today : Int) : Document :=
  { doc with status := computeStatus doc.expiryDate today }

end DriveDoc

namespace DriveDoc

/-- Body of `POST /api/documents`.  A caller may supply a `status`; the schema
default is `valid` when it is absent. -/
structure CreateDocumentBody where
  country : String
  dtype : String
  number : String
  issueDate : Option Int
  expiryDate : Int
  status : Option DocStatus
deriving Repr

/-- Responses of the document handlers, reduced to what the claims mention. -/
inductive DocResponse
  | created (doc : Document)
  | updated (doc : Document)
  | notFound
  | notAuthorized
deriving DecidableEq, Repr

/-- `addDocument` (src/controllers/documentsControllers.js lines 41-62):
`Document.create` builds the record, then the `pre-save` hook recomputes
`status` before persisting. -/
def addDocument (docs : List Document) (userId : Nat) (body : CreateDocumentBody)
    (newId : Nat) (now : Int) : List Document × DocResponse :=
  let fresh : Document :=
    { id := newId
      user := userId
      country := body.country
      dtype := body.dtype
      number := body.number
      issueDate := body.issueDate
      expiryDate := body.expiryDate
      status := body.status.getD .valid
      createdAt := now }
  let saved := documentPreSave fresh now
  (docs ++ [saved], .created saved)

/-- Body of `PUT /api/documents/:id`: the handler passes `req.body` wholesale to
`findByIdAndUpdate`, so every schema field may be set. -/
structure UpdateDocumentBody where
  country : Option String
  dtype : Option String
  number : Option String
  issueDate : Option Int
  expiryDate : Option Int
  status : Option DocStatus
deriving Repr

/-- The field assignment performed by `findByIdAndUpdate` on one record: each
field present in the body replaces the stored one.  Mongoose runs no document
middleware here, so the `pre-save` hook does not fire and `status` is
whatever the body supplied (or the stored value when absent). -/
def applyUpdateBody (doc : Document) (body : UpdateDocumentBody) : Document :=
  { doc with
    country := body.country.getD doc.country
    dtype := body.dtype.getD doc.dtype
    number := body.number.getD doc.number
    issueDate := body.issueDate <|> doc.issueDate
    expiryDate := body.expiryDate.getD doc.expiryDate
    status := body.status.getD doc.status }

/-- `updateDocument` (src/controllers/documentsControllers.js lines 64-102):
looks the document up, rejects when absent or owned by someone else, then
persists `req.body` through `findByIdAndUpdate` - which bypasses the
`pre-save` status recomputation. -/
def updateDocument (docs : List Document) (userId : Nat) (docId : Nat)
    (body : UpdateDocumentBody) : List Document × DocResponse :=
  match docs.find? (fun d => d.id = docId) with
  | none => (docs, .notFound)
  | some doc =>
    if doc.user ≠ userId then (docs, .notAuthorized)
    else
      let updated := applyUpdateBody doc body
      (docs.map (fun d => if d.id = docId then updated else d), .updated updated)

end DriveDoc

namespace DriveDoc

/-- The `status` enum of the payment schema (src/unnamed/part_005 lines 32-36). -/
inductive PayStatus
  | pending
  | success
  | failed
deriving DecidableEq, Repr

/-- A record of the `Payment` collection (src/unnamed/part_005). -/
structure Payment where
  user : Nat
  document : Nat
  amount : Int
  currency : String
  paystackReference : String
  paystackTransactionId : String
  status : PayStatus
deriving DecidableEq, Repr

/-- The `data` object of a Paystack verification response, as read by
`verifyPayment` (src/controllers/paymentController.js lines 24-26, 38-43). -/
structure GatewayData where
  status : String
  amount : Int
  currency : String
  txId : Nat
deriving DecidableEq, Repr

/-- The persistent state touched by `verifyPayment`: the payment and document
collections. -/
structure PayState where
  payments : List Payment
  documents : List Document
deriving DecidableEq, Repr

/-- Responses of `verifyPayment`, reduced to what the claims mention. -/
inductive VerifyResponse
  | okMessage (msg : String)
  | okDocument (doc : Document)
  | badRequest (msg : String)
  | notFound (msg : String)
  | serverError
deriving DecidableEq, Repr

/-- `verifyPayment` (src/controllers/paymentController.js).  The Paystack call
is passed in as `gateway` (`none` when the HTTP call or configuration throws,
landing in the catch block); `addYear` embeds the JavaScript
`setFullYear(getFullYear() + 1)` calendar step.  On gateway success the handler
returns early for an already-recorded reference, otherwise records the payment
FIRST, then looks the document up, extends its expiry by one year from `now`
when already past or from the old expiry otherwise, sets `status` to valid and
persists through `document.save()`, which reruns the `pre-save` hook. -/
def verifyPayment (addYear : Int → Int) (st : PayState) (userId : Nat)
    (reference : String) (documentId : Nat) (gateway : Option GatewayData)
    (now : Int) : PayState × VerifyResponse :=
  match gateway with
  | none => (st, .serverError)
  | some data =>
    if data.status ≠ "success" then
      (st, .badRequest "Payment verification failed")
    else if st.payments.any (fun p => p.paystackReference = reference) then
      (st, .okMessage "Already processed")
    else
      let pay : Payment :=
        { user := userId
          document := documentId
          amount := data.amount
          currency := data.currency
          paystackReference := reference
          paystackTransactionId := toString data.txId
          status := .success }
      let st1 : PayState := { st with payments := st.payments ++ [pay] }
      match st1.documents.find? (fun d => d.id = documentId) with
      | none => (st1, .notFound "Document not found")
      | some document =>
        let oldDate := document.expiryDate
        let newDate := if oldDate < now then addYear now else addYear oldDate
        let saved := documentPreSave { document with expiryDate := newDate, status := .valid } now
        ({ st1 with
            documents := st1.documents.map (fun d => if d.id = documentId then saved else d) },
          .okDocument saved)

end DriveDoc

namespace DriveDoc

/-- The `status` enum of the booking schema (src/unnamed/part_003 lines 23-27),
with default `confirmed`. -/
inductive BookingStatus
  | pending
  | confirmed
  | completed
  | cancelled
deriving DecidableEq, Repr

/-- A record of the `Booking` collection (src/unnamed/part_003). -/
structure Booking where
  id : Nat
  user : Nat
  date : Int
  startTime : String
  lessonType : String
  status : BookingStatus
  notes : String
  createdAt : Int
deriving DecidableEq, Repr

/-- Responses of the booking handlers, reduced to what the claims mention. -/
inductive BookingResponse
  | created (b : Booking)
  | cancelled (b : Booking)
  | badRequest (msg : String)
  | notFound (msg : String)
  | notAuthorized (msg : String)
deriving DecidableEq, Repr

/-- The conflict predicate of `createBooking` (src/unnamed/part_001 lines
300-305): an existing booking of the same user at the same `(date, startTime)`
whose status is not `cancelled`. -/
def bookingConflict (uid : Nat) (date : Int) (startTime : String) (b : Booking) : Bool :=
  b.user = uid && b.date = date && b.startTime = startTime && b.status ≠ .cancelled

/-- `createBooking` (src/unnamed/part_001 lines 291-330): rejects with a 400
conflict message when a non-cancelled booking of the same user occupies the
same `(date, startTime)`, otherwise creates the booking with the schema
defaults (`status = confirmed`, `lessonType = Standard Lesson`). -/
def createBooking (bookings : List Booking) (uid : Nat) (date : Int)
    (startTime : String) (lessonType : Option String) (notes : String)
    (newId : Nat) (now : Int) : List Booking × BookingResponse :=
  if bookings.any (bookingConflict uid date startTime) then
    (bookings, .badRequest "You already have a booking at this time")
  else
    let booking : Booking :=
      { id := newId
        user := uid
        date := date
        startTime := startTime
        lessonType := lessonType.getD "Standard Lesson"
        status := .confirmed
        notes := notes
        createdAt := now }
    (bookings ++ [booking], .created booking)

/-- `cancelBooking` (src/unnamed/part_001 lines 370-405): 404 when the id is
unknown, 401 when the requester does not own the booking, otherwise
`findByIdAndUpdate` sets `status` to `cancelled` and the handler returns the
updated record. -/
def cancelBooking (bookings : List Booking) (uid : Nat) (bookingId : Nat) :
    List Booking × BookingResponse :=
  match bookings.find? (fun b => b.id = bookingId) with
  | none => (bookings, .notFound "Booking not found")
  | some booking =>
    if booking.user ≠ uid then
      (bookings, .notAuthorized "Not authorized to cancel this booking")
    else
      let updated := { booking with status := BookingStatus.cancelled }
      (bookings.map (fun b => if b.id = bookingId then updated else b),
        .cancelled updated)

end DriveDoc

namespace DriveDoc

/-- One push subscription of a user (src/unnamed/part_001, User usage): an
endpoint, its keys (kept abstract as a string) and the `enabled` gate. -/
structure Subscription where
  endpoint : String
  keys : String
  enabled : Bool
deriving DecidableEq, Repr

/-- A record of the `User` collection, reduced to the fields the claims need. -/
structure UserRec where
  id : Nat
  pushSubscriptions : List Subscription
deriving DecidableEq, Repr

/-- JavaScript truthiness of an optional string: `undefined` and the empty
string are falsy. -/
def jsTruthy : Option String → Bool
  | none => false
  | some s => s ≠ ""

/-- The request data `protect` reads: the `token` cookie and the
`Authorization` header. -/
structure AuthRequest where
  cookieToken : Option String
  authHeader : Option String
deriving Repr

/-- Token extraction of `protect` (src/unnamed/part_002 lines 8-18): the cookie
when truthy, else `authorization.split(" ")[1]` when the header starts with
`Bearer`; `[1]` of a one-element split is `undefined`, embedded as `none`. -/
def extractToken (req : AuthRequest) : Option String :=
  if jsTruthy req.cookieToken then req.cookieToken
  else
    match req.authHeader with
    | some h => if h.startsWith "Bearer" then (h.splitOn " ")[1]? else none
    | none => none

/-- Outcome of the auth guard: a 401 with its message, or control passed to the
downstream handler with `req.user` set to the resolved user. -/
inductive AuthResult
  | unauthorized (msg : String)
  | proceed (u : UserRec)
deriving DecidableEq, Repr

/-- `protect` (src/unnamed/part_002): 401 when no truthy token was extracted,
401 when `jwt.verify` throws (embedded as `verify` returning `none`), 401 when
the decoded id matches no stored user, else attach the user and call `next`. -/
def protect (verify : String → Option Nat) (users : List UserRec)
    (req : AuthRequest) : AuthResult :=
  let token := extractToken req
  if ¬ jsTruthy token then .unauthorized "Not authorized to access this route"
  else
    match verify (token.getD "") with
    | none => .unauthorized "Not authorized to access this route"
    | some uid =>
      match users.find? (fun u => u.id = uid) with
      | none => .unauthorized "Not authorized. User no longer exists."
      | some u => .proceed u

end DriveDoc

namespace DriveDoc

/-- Which scan branch produced a notification: the expired branch or the
expiring-soon branch. -/
inductive NotifKind
  | expired
  | expiringSoon
deriving DecidableEq, Repr

/-- One `webpush.sendNotification` attempt of the scan, instrumented with the
document id and branch that produced it; `title` and `body` are the payload
fields exactly as the code builds them, and `delivered` the outcome of the
send, which the code swallows. -/
structure SendAttempt where
  docId : Nat
  kind : NotifKind
  endpoint : String
  title : String
  payloadBody : String
  delivered : Bool
deriving DecidableEq, Repr

/-- Subscription resolution of the scan (src/unnamed/part_001 lines 199-203):
the enabled subscriptions of a user id, `[]` when the user is unknown.  The
`usersMap` cache of the code is a pure lookup here. -/
def enabledSubs (users : List UserRec) (uid : Nat) : List Subscription :=
  match users.find? (fun u => u.id = uid) with
  | some u => u.pushSubscriptions.filter (fun s => s.enabled)
  | none => []

/-- The notification fan-out for one document of one scan branch: one send per
enabled subscription of the owner, each failure swallowed by its own
try/catch. -/
def fanOut (users : List UserRec) (send : String → Bool) (doc : Document)
    (kind : NotifKind) (title payloadBody : String) : List SendAttempt :=
  (enabledSubs users doc.user).map (fun s =>
    { docId := doc.id
      kind := kind
      endpoint := s.endpoint
      title := title
      payloadBody := payloadBody
      delivered := send s.endpoint })

/-- `notifyExpiredDocuments` (src/unnamed/part_001 lines 189-238, identical to
`fullNotifyExpired` in src/server.js lines 181-230): queries the documents with
`expiryDate <= now` and those with `now < expiryDate <= now + soonDays` days,
then attempts one push per enabled subscription of each owner, in that order;
`send` is the web-push delivery, whose result is recorded but never alters the
scan. -/
def notifyExpiredDocuments (docs : List Document) (users : List UserRec)
    (send : String → Bool) (now : Int) (soonDays : Int) : List SendAttempt :=
  let expiredDocs := docs.filter (fun d => d.expiryDate ≤ now)
  let soonThreshold := now + soonDays * msPerDay
  let expiringSoonDocs :=
    docs.filter (fun d => now < d.expiryDate && d.expiryDate ≤ soonThreshold)
  (expiredDocs.flatMap (fun doc =>
      fanOut users send doc .expired "Document expired"
        (doc.dtype ++ " (" ++ doc.number ++ ") has expired"))) ++
  (expiringSoonDocs.flatMap (fun doc =>
      fanOut users send doc .expiringSoon "Document expiring soon"
        (doc.dtype ++ " (" ++ doc.number ++ ") expires on " ++ toString doc.expiryDate)))

end DriveDoc


namespace DriveDoc

/-! ### Helper lemmas shared by several theorems -/

/-- Replaying `find?` through a `map` that preserves the predicate. -/
theorem find?_map_pred {α : Type} (p : α → Bool) (f : α → α) (l : List α)
    (hpf : ∀ x, p (f x) = p x) : (l.map f).find? p = (l.find? p).map f := by
  induction l with
  | nil => rfl
  | cons a t ih =>
    simp only [List.map_cons, List.find?_cons, hpf]
    cases hp : p a <;> simp [hp, ih]

/-- A recorded reference makes `verifyPayment` return early with no state
change, whatever the rest of the request looks like. -/
theorem verifyPayment_replay_of_recorded (addYear : Int → Int)
    (st : PayState) (uid : Nat) (ref : String) (docId : Nat) (data : GatewayData)
    (now : Int) (hsucc : data.status = "success")
    (hrec : st.payments.any (fun p => p.paystackReference = ref) = true) :
    verifyPayment addYear st uid ref docId (some data) now =
      (st, .okMessage "Already processed") := by
  simp [verifyPayment, hsucc, hrec]

/-- The arithmetic core: `daysUntilExpiry` is the least integer number of days
covering the millisecond difference. -/
theorem daysUntilExpiry_ceil (expiry today : Int) :
    expiry - today ≤ daysUntilExpiry expiry today * msPerDay ∧
      (daysUntilExpiry expiry today - 1) * msPerDay < expiry - today := by
  unfold daysUntilExpiry jsCeilDiv msPerDay
  norm_num
  omega

end DriveDoc

namespace DriveDoc

/-- C3: the status boundary arithmetic uses the ceiling division of the
millisecond difference by one day; exactly 30 whole days remaining is
classified expiring (inclusive boundary); zero days until expiry is classified
expiring, not expired; expired holds exactly when the day count is negative. -/
theorem status_boundary_ceiling (expiry now : Int) :
    (expiry - now ≤ daysUntilExpiry expiry now * msPerDay ∧
      (daysUntilExpiry expiry now - 1) * msPerDay < expiry - now) ∧
    (expiry - now = 30 * msPerDay → computeStatus expiry now = .expiring) ∧
    (daysUntilExpiry expiry now = 0 → computeStatus expiry now = .expiring) ∧
    (computeStatus expiry now = .expired ↔ daysUntilExpiry expiry now < 0) := by
  refine ⟨daysUntilExpiry_ceil expiry now, ?_, ?_, ?_⟩ <;>
    · unfold computeStatus daysUntilExpiry jsCeilDiv msPerDay
      split_ifs <;> simp_all <;> omega

/-- Witness for C3 at a concrete input: expiry exactly 30 days after now. -/
theorem status_boundary_ceiling_witness :
    ((30 * msPerDay : Int) - 0 = 30 * msPerDay → computeStatus (30 * msPerDay) 0 = .expiring) ∧
    computeStatus (30 * msPerDay) 0 = .expiring ∧
    computeStatus 0 0 = .expiring ∧
    computeStatus 0 0 ≠ .expired := by
  have h := status_boundary_ceiling (30 * msPerDay) 0
  have h0 := status_boundary_ceiling 0 0
  refine ⟨h.2.1, h.2.1 (by decide), h0.2.2.1 (by decide), ?_⟩
  intro hc
  exact absurd (h0.2.2.2.mp hc) (by decide)

end DriveDoc

namespace DriveDoc

/-- C1: evaluation of the generic update path at a failing input.  A document
with a far-future expiry is updated through `PUT /documents/:id` with a body
carrying `expiryDate` ten days in the past and `status = valid`; the persisted
status is the client-supplied `valid`, although the recomputation the claim
demands would yield `expired`.  `findByIdAndUpdate` does not run the `pre-save`
hook, so the computed value does not win. -/
theorem updateDocument_keeps_client_status :
    ((updateDocument
        [⟨1, 5, "NG", "licence", "A1", none, 900 * msPerDay, .valid, 0⟩]
        5 1 ⟨none, none, none, none, some (-10 * msPerDay), some .valid⟩).1.map
          Document.status = [.valid]) ∧
    computeStatus (-10 * msPerDay) 0 = .expired := by
  decide

/-- C2 counterexample: a document created at time 0 with `expiryDate` one hour
in the past has `expiryDate < now`, yet its stored status immediately after the
create is `expiring`, not `expired` (the ceiling day count is 0). -/
theorem create_status_expired_iff_past_fails :
    ((addDocument [] 1 ⟨"NG", "licence", "A1", none, -3600000, none⟩ 7 0).1.map
        Document.status = [.expiring]) ∧
    (-3600000 : Int) < 0 := by
  decide

/-- C2 amended: immediately after a create, the stored status is classified
from the ceiling day count `daysUntilExpiry` against the fixed 30-day window:
expired iff the count is negative, expiring iff it lies in `[0, 30]`, valid
iff it exceeds 30. -/
theorem create_status_classification (docs : List Document) (u : Nat)
    (body : CreateDocumentBody) (newId : Nat) (now : Int) :
    ∀ doc, (addDocument docs u body newId now).2 = .created doc →
      doc.expiryDate = body.expiryDate ∧
      (doc.status = .expired ↔ daysUntilExpiry doc.expiryDate now < 0) ∧
      (doc.status = .expiring ↔
        (0 ≤ daysUntilExpiry doc.expiryDate now ∧ daysUntilExpiry doc.expiryDate now ≤ 30)) ∧
      (doc.status = .valid ↔ 30 < daysUntilExpiry doc.expiryDate now) := by
  intro doc h
  simp only [addDocument, DocResponse.created.injEq] at h
  subst h
  simp only [documentPreSave]
  refine ⟨by simp, ?_, ?_, ?_⟩ <;>
    · unfold computeStatus
      split_ifs <;> simp_all <;> omega

/-- Witness for C2 at a concrete input: the document created with expiry one
hour before time 0 is classified by its ceiling day count. -/
theorem create_status_classification_witness :
    ((Document.mk 7 1 "NG" "licence" "A1" none (-3600000) DocStatus.expiring 0).status = .expired
        ↔ daysUntilExpiry
            (Document.mk 7 1 "NG" "licence" "A1" none (-3600000) DocStatus.expiring 0).expiryDate
            0 < 0) ∧
    ((Document.mk 7 1 "NG" "licence" "A1" none (-3600000) DocStatus.expiring 0).status = .expiring
        ↔ (0 ≤ daysUntilExpiry
              (Document.mk 7 1 "NG" "licence" "A1" none (-3600000) DocStatus.expiring 0).expiryDate
              0 ∧
            daysUntilExpiry
              (Document.mk 7 1 "NG" "licence" "A1" none (-3600000) DocStatus.expiring 0).expiryDate
              0 ≤ 30)) := by
  have h := create_status_classification [] 1 ⟨"NG", "licence", "A1", none, -3600000, none⟩ 7 0
      (Document.mk 7 1 "NG" "licence" "A1" none (-3600000) DocStatus.expiring 0) (by decide)
  exact ⟨h.2.1, h.2.2.1⟩

end DriveDoc

namespace DriveDoc

/-- C4: payment verification is idempotent in the external reference.  When
the reference is already recorded and the gateway reports success, the handler
answers 200 with a success envelope and leaves the whole state - in particular
every document, its expiry and its status - untouched. -/
theorem verifyPayment_idempotent_replay (addYear : Int → Int) (st : PayState)
    (uid : Nat) (ref : String) (docId : Nat) (data : GatewayData) (now : Int)
    (hsucc : data.status = "success")
    (hrec : st.payments.any (fun p => p.paystackReference = ref) = true) :
    verifyPayment addYear st uid ref docId (some data) now =
      (st, .okMessage "Already processed") ∧
    (verifyPayment addYear st uid ref docId (some data) now).1.documents =
      st.documents := by
  have h := verifyPayment_replay_of_recorded addYear st uid ref docId data now hsucc hrec
  exact ⟨h, by rw [h]⟩

/-- Witness for C4: a concrete state holding the reference `r1`; the replay
answers success and changes nothing. -/
theorem verifyPayment_idempotent_replay_witness :
    verifyPayment (fun t => t + 365 * msPerDay)
        ⟨[⟨1, 2, 5000, "NGN", "r1", "42", .success⟩],
          [⟨2, 1, "NG", "licence", "A1", none, 0, .valid, 0⟩]⟩
        1 "r1" 2 (some ⟨"success", 5000, "NGN", 42⟩) 0 =
      (⟨[⟨1, 2, 5000, "NGN", "r1", "42", .success⟩],
          [⟨2, 1, "NG", "licence", "A1", none, 0, .valid, 0⟩]⟩,
        .okMessage "Already processed") := by
  exact (verifyPayment_idempotent_replay (fun t => t + 365 * msPerDay)
    ⟨[⟨1, 2, 5000, "NGN", "r1", "42", .success⟩],
      [⟨2, 1, "NG", "licence", "A1", none, 0, .valid, 0⟩]⟩
    1 "r1" 2 ⟨"success", 5000, "NGN", 42⟩ 0 rfl (by decide)).1

/-- C5: on a first successful verification the payment is recorded, and the
target document ends with expiry exactly one calendar year after `now` when the
old expiry was already past, or one year after the old expiry otherwise; when
that new expiry lies more than 30 ceiling-days ahead (which a one-year step
always does), the persisted status is valid. -/
theorem verifyPayment_first_success_extends_one_year (addYear : Int → Int)
    (st : PayState) (uid : Nat) (ref : String) (docId : Nat) (data : GatewayData)
    (now : Int) (doc : Document)
    (hsucc : data.status = "success")
    (hnew : st.payments.any (fun p => p.paystackReference = ref) = false)
    (hdoc : st.documents.find? (fun d => d.id = docId) = some doc) :
    ∃ saved,
      (verifyPayment addYear st uid ref docId (some data) now).2 = .okDocument saved ∧
      (verifyPayment addYear st uid ref docId (some data) now).1.payments =
        st.payments ++
          [⟨uid, docId, data.amount, data.currency, ref, toString data.txId, .success⟩] ∧
      (verifyPayment addYear st uid ref docId (some data) now).1.documents.find?
          (fun d => d.id = docId) = some saved ∧
      saved.expiryDate =
        (if doc.expiryDate < now then addYear now else addYear doc.expiryDate) ∧
      (30 < daysUntilExpiry saved.expiryDate now → saved.status = .valid) := by
  have hid : doc.id = docId := by
    have := List.find?_some hdoc
    simpa using this
  refine ⟨documentPreSave
      { doc with
        expiryDate := if doc.expiryDate < now then addYear now else addYear doc.expiryDate,
        status := .valid } now, ?_, ?_, ?_, ?_, ?_⟩
  · simp [verifyPayment, hsucc, hnew, hdoc]
  · simp [verifyPayment, hsucc, hnew, hdoc]
  · have hdocs : (verifyPayment addYear st uid ref docId (some data) now).1.documents =
        st.documents.map (fun d =>
          if d.id = docId then
            documentPreSave
              { doc with
                expiryDate := if doc.expiryDate < now then addYear now else addYear doc.expiryDate,
                status := .valid } now
          else d) := by
      simp [verifyPayment, hsucc, hnew, hdoc]
    rw [hdocs, find?_map_pred]
    · rw [hdoc]
      simp [hid]
    · intro x
      by_cases hx : x.id = docId <;> simp [hx, documentPreSave, hid]
  · simp [documentPreSave]
  · intro h30
    simp only [documentPreSave, computeStatus] at *
    split_ifs <;> simp_all <;> omega

/-- Witness for C5: the spec scenario - expiry five days past at time 0; the
extension lands one 365-day year ahead and the stored status is valid. -/
theorem verifyPayment_first_success_extends_one_year_witness :
    ∃ saved,
      (verifyPayment (fun t => t + 365 * msPerDay)
          ⟨[], [⟨2, 1, "NG", "licence", "A1", none, -5 * msPerDay, .expired, 0⟩]⟩
          1 "r2" 2 (some ⟨"success", 5000, "NGN", 42⟩) 0).2 = .okDocument saved ∧
      (verifyPayment (fun t => t + 365 * msPerDay)
          ⟨[], [⟨2, 1, "NG", "licence", "A1", none, -5 * msPerDay, .expired, 0⟩]⟩
          1 "r2" 2 (some ⟨"success", 5000, "NGN", 42⟩) 0).1.payments =
        [] ++ [⟨1, 2, 5000, "NGN", "r2", "42", .success⟩] ∧
      (verifyPayment (fun t => t + 365 * msPerDay)
          ⟨[], [⟨2, 1, "NG", "licence", "A1", none, -5 * msPerDay, .expired, 0⟩]⟩
          1 "r2" 2 (some ⟨"success", 5000, "NGN", 42⟩) 0).1.documents.find?
          (fun d => d.id = 2) = some saved ∧
      saved.expiryDate =
        (if (⟨2, 1, "NG", "licence", "A1", none, -5 * msPerDay, .expired, 0⟩ :
              Document).expiryDate < 0 then (fun t => t + 365 * msPerDay) 0
          else (fun t => t + 365 * msPerDay)
            (⟨2, 1, "NG", "licence", "A1", none, -5 * msPerDay, .expired, 0⟩ :
              Document).expiryDate) ∧
      (30 < daysUntilExpiry saved.expiryDate 0 → saved.status = .valid) := by
  exact verifyPayment_first_success_extends_one_year (fun t => t + 365 * msPerDay)
    ⟨[], [⟨2, 1, "NG", "licence", "A1", none, -5 * msPerDay, .expired, 0⟩]⟩
    1 "r2" 2 ⟨"success", 5000, "NGN", 42⟩ 0
    ⟨2, 1, "NG", "licence", "A1", none, -5 * msPerDay, .expired, 0⟩
    rfl (by decide) (by decide)

end DriveDoc

namespace DriveDoc

/-- C10: the payment record is persisted before the document lookup.  With a
gateway-success reference that is not yet recorded and an unknown document id,
the handler answers 404 Document not found, yet the payment is already in the
store and no document changed; every later verify with the same reference then
answers Already processed without touching any document. -/
theorem verifyPayment_records_before_document_lookup (addYear : Int → Int)
    (st : PayState) (uid : Nat) (ref : String) (docId : Nat) (data : GatewayData)
    (now : Int)
    (hsucc : data.status = "success")
    (hnew : st.payments.any (fun p => p.paystackReference = ref) = false)
    (hnodoc : st.documents.find? (fun d => d.id = docId) = none) :
    verifyPayment addYear st uid ref docId (some data) now =
      ({ payments := st.payments ++
            [⟨uid, docId, data.amount, data.currency, ref, toString data.txId, .success⟩],
          documents := st.documents }, .notFound "Document not found") ∧
    ∀ (uid2 docId2 : Nat) (data2 : GatewayData) (now2 : Int), data2.status = "success" →
      verifyPayment addYear
          (verifyPayment addYear st uid ref docId (some data) now).1 uid2 ref docId2
          (some data2) now2 =
        ((verifyPayment addYear st uid ref docId (some data) now).1,
          .okMessage "Already processed") := by
  have hfirst : verifyPayment addYear st uid ref docId (some data) now =
      ({ payments := st.payments ++
            [⟨uid, docId, data.amount, data.currency, ref, toString data.txId, .success⟩],
          documents := st.documents }, .notFound "Document not found") := by
    simp [verifyPayment, hsucc, hnew, hnodoc]
  refine ⟨hfirst, ?_⟩
  intro uid2 docId2 data2 now2 hsucc2
  apply verifyPayment_replay_of_recorded
  · exact hsucc2
  · rw [hfirst]
    simp

/-- Witness for C10: empty stores, reference `r9`, unknown document id 3. -/
theorem verifyPayment_records_before_document_lookup_witness :
    verifyPayment (fun t => t + 365 * msPerDay) ⟨[], []⟩ 1 "r9" 3
        (some ⟨"success", 100, "NGN", 9⟩) 0 =
      (⟨[⟨1, 3, 100, "NGN", "r9", "9", .success⟩], []⟩, .notFound "Document not found") := by
  exact (verifyPayment_records_before_document_lookup (fun t => t + 365 * msPerDay)
    ⟨[], []⟩ 1 "r9" 3 ⟨"success", 100, "NGN", 9⟩ 0 rfl (by decide) (by decide)).1

end DriveDoc

namespace DriveDoc

/-- Reduction of `createBooking` when the conflict query finds a booking. -/
theorem createBooking_conflictCase (bookings : List Booking) (uid : Nat)
    (date : Int) (startTime : String) (lessonType : Option String) (notes : String)
    (newId : Nat) (now : Int)
    (h : bookings.any (bookingConflict uid date startTime) = true) :
    createBooking bookings uid date startTime lessonType notes newId now =
      (bookings, .badRequest "You already have a booking at this time") := by
  unfold createBooking
  rw [h]
  simp

/-- Reduction of `createBooking` when the conflict query finds nothing. -/
theorem createBooking_freeCase (bookings : List Booking) (uid : Nat)
    (date : Int) (startTime : String) (lessonType : Option String) (notes : String)
    (newId : Nat) (now : Int)
    (h : bookings.any (bookingConflict uid date startTime) = false) :
    createBooking bookings uid date startTime lessonType notes newId now =
      (bookings ++
          [⟨newId, uid, date, startTime, lessonType.getD "Standard Lesson", .confirmed,
            notes, now⟩],
        .created
          ⟨newId, uid, date, startTime, lessonType.getD "Standard Lesson", .confirmed,
            notes, now⟩) := by
  unfold createBooking
  rw [h]
  simp

/-- C7: a booking create is rejected with the conflict message exactly when a
non-cancelled booking of the same owner occupies the same `(date, startTime)`
pair; starting from a free slot, two identical create requests in direct
succession leave exactly one non-cancelled booking at the slot and the second
request is rejected. -/
theorem createBooking_conflict_check (bookings : List Booking) (uid : Nat)
    (date : Int) (startTime : String) (lessonType : Option String) (notes : String)
    (newId : Nat) (now : Int) :
    ((createBooking bookings uid date startTime lessonType notes newId now).2 =
        .badRequest "You already have a booking at this time" ↔
      bookings.any (bookingConflict uid date startTime) = true) ∧
    (bookings.any (bookingConflict uid date startTime) = false →
      ∀ (lt2 : Option String) (notes2 : String) (newId2 : Nat) (now2 : Int),
        (createBooking
            (createBooking bookings uid date startTime lessonType notes newId now).1
            uid date startTime lt2 notes2 newId2 now2).2 =
          .badRequest "You already have a booking at this time" ∧
        (createBooking
            (createBooking bookings uid date startTime lessonType notes newId now).1
            uid date startTime lt2 notes2 newId2 now2).1.countP
          (bookingConflict uid date startTime) = 1) := by
  constructor
  · cases hc : bookings.any (bookingConflict uid date startTime)
    · rw [createBooking_freeCase bookings uid date startTime lessonType notes newId now hc]
      simp
    · rw [createBooking_conflictCase bookings uid date startTime lessonType notes newId now hc]
      simp
  · intro hconf lt2 notes2 newId2 now2
    have hfst := createBooking_freeCase bookings uid date startTime lessonType notes newId now hconf
    have hnewc : bookingConflict uid date startTime
        ⟨newId, uid, date, startTime, lessonType.getD "Standard Lesson", .confirmed,
          notes, now⟩ = true := by
      simp [bookingConflict]
    have hany : ((createBooking bookings uid date startTime lessonType notes newId now).1.any
        (bookingConflict uid date startTime)) = true := by
      rw [hfst]
      simp [hnewc]
    have hzero : bookings.countP (bookingConflict uid date startTime) = 0 := by
      rw [List.countP_eq_zero]
      intro a ha
      have := List.any_eq_false.mp hconf a ha
      simpa using this
    have hsnd := createBooking_conflictCase
      (createBooking bookings uid date startTime lessonType notes newId now).1
      uid date startTime lt2 notes2 newId2 now2 hany
    rw [hsnd]
    refine ⟨rfl, ?_⟩
    rw [hfst]
    simp [List.countP_append, hzero, hnewc]

/-- Witness for C7: owner 4, an empty booking store, two identical creates at
date 100, time 10:00. -/
theorem createBooking_conflict_check_witness :
    ((createBooking
        (createBooking [] 4 100 "10:00" none "" 1 0).1
        4 100 "10:00" none "" 2 0).2 =
      .badRequest "You already have a booking at this time") ∧
    ((createBooking
        (createBooking [] 4 100 "10:00" none "" 1 0).1
        4 100 "10:00" none "" 2 0).1.countP (bookingConflict 4 100 "10:00") = 1) := by
  exact (createBooking_conflict_check [] 4 100 "10:00" none "" 1 0).2 (by decide)
    none "" 2 0

/-- C8: cancelling transitions the status to cancelled only for the owner; a
request by any other identity is answered with an authorization error and the
whole store - the booking included - is unchanged. -/
theorem cancelBooking_owner_only (bookings : List Booking) (uid : Nat)
    (bookingId : Nat) :
    (bookings.find? (fun b => b.id = bookingId) = none →
      cancelBooking bookings uid bookingId = (bookings, .notFound "Booking not found")) ∧
    ∀ booking, bookings.find? (fun b => b.id = bookingId) = some booking →
      (booking.user ≠ uid →
        cancelBooking bookings uid bookingId =
          (bookings, .notAuthorized "Not authorized to cancel this booking")) ∧
      (booking.user = uid →
        (cancelBooking bookings uid bookingId).1.find? (fun b => b.id = bookingId) =
          some { booking with status := BookingStatus.cancelled } ∧
        (cancelBooking bookings uid bookingId).2 =
          .cancelled { booking with status := BookingStatus.cancelled }) := by
  constructor
  · intro hnone
    simp [cancelBooking, hnone]
  · intro booking hfind
    have hid : booking.id = bookingId := by
      have := List.find?_some hfind
      simpa using this
    constructor
    · intro hne
      simp [cancelBooking, hfind, hne]
    · intro howner
      have hrun : cancelBooking bookings uid bookingId =
          (bookings.map (fun b =>
              if b.id = bookingId then { booking with status := BookingStatus.cancelled }
              else b),
            .cancelled { booking with status := BookingStatus.cancelled }) := by
        simp [cancelBooking, hfind, howner]
      rw [hrun]
      refine ⟨?_, rfl⟩
      rw [find?_map_pred]
      · rw [hfind]
        simp [hid]
      · intro x
        by_cases hx : x.id = bookingId <;> simp [hx, hid]

/-- Witness for C8: booking 1 owned by user 5, cancel requested by user 6. -/
theorem cancelBooking_owner_only_witness :
    cancelBooking [⟨1, 5, 100, "10:00", "Standard Lesson", .confirmed, "", 0⟩] 6 1 =
      ([⟨1, 5, 100, "10:00", "Standard Lesson", .confirmed, "", 0⟩],
        .notAuthorized "Not authorized to cancel this booking") := by
  exact ((cancelBooking_owner_only
      [⟨1, 5, 100, "10:00", "Standard Lesson", .confirmed, "", 0⟩] 6 1).2
    ⟨1, 5, 100, "10:00", "Standard Lesson", .confirmed, "", 0⟩ (by decide)).1 (by decide)

end DriveDoc

namespace DriveDoc

/-- C9: the guard prefers the cookie credential and falls back to the bearer
header; it answers 401 exactly when no truthy credential was extracted, when
verification fails, or when the decoded identity matches no stored user; on
success it hands the resolved user to the downstream handler. -/
theorem protect_guard (verify : String → Option Nat) (users : List UserRec)
    (req : AuthRequest) :
    (jsTruthy req.cookieToken = true → extractToken req = req.cookieToken) ∧
    (jsTruthy req.cookieToken = false →
      ∀ h, req.authHeader = some h → h.startsWith "Bearer" = true →
        extractToken req = (h.splitOn " ")[1]?) ∧
    ((∃ msg, protect verify users req = .unauthorized msg) ↔
      (jsTruthy (extractToken req) = false ∨
        (jsTruthy (extractToken req) = true ∧
          verify ((extractToken req).getD "") = none) ∨
        (∃ uid, verify ((extractToken req).getD "") = some uid ∧
          users.find? (fun u => u.id = uid) = none))) ∧
    (∀ (uid : Nat) (u : UserRec), jsTruthy (extractToken req) = true →
      verify ((extractToken req).getD "") = some uid →
      users.find? (fun u2 => u2.id = uid) = some u →
      protect verify users req = .proceed u) := by
  refine ⟨?_, ?_, ?_, ?_⟩
  · intro h
    simp [extractToken, h]
  · intro h hh hdr hstart
    simp [extractToken, h, hdr, hstart]
  · by_cases ht : jsTruthy (extractToken req) = true
    · cases hv : verify ((extractToken req).getD "") with
      | none =>
        have hp : protect verify users req =
            .unauthorized "Not authorized to access this route" := by
          simp [protect, ht, hv]
        constructor
        · intro
          exact Or.inr (Or.inl ⟨ht, rfl⟩)
        · intro
          exact ⟨_, hp⟩
      | some uid =>
        cases hf : users.find? (fun u => u.id = uid) with
        | none =>
          have hp : protect verify users req =
              .unauthorized "Not authorized. User no longer exists." := by
            simp [protect, ht, hv, hf]
          constructor
          · intro
            exact Or.inr (Or.inr ⟨uid, rfl, hf⟩)
          · intro
            exact ⟨_, hp⟩
        | some u =>
          have hp : protect verify users req = .proceed u := by
            simp [protect, ht, hv, hf]
          constructor
          · rintro ⟨msg, hmsg⟩
            rw [hp] at hmsg
            exact absurd hmsg (by simp)
          · rintro (h1 | ⟨h2a, h2b⟩ | ⟨uid2, hv2, hf2⟩)
            · exact absurd ht (by simp [h1])
            · exact absurd h2b (by simp)
            · obtain rfl : uid = uid2 := by
                simpa using hv2
              exact absurd (hf.symm.trans hf2) (by simp)
    · have ht' : jsTruthy (extractToken req) = false := by
        simpa using ht
      have hp : protect verify users req =
          .unauthorized "Not authorized to access this route" := by
        simp [protect, ht']
      constructor
      · intro
        exact Or.inl ht'
      · intro
        exact ⟨_, hp⟩
  · intro uid u ht hv hf
    simp [protect, ht, hv, hf]

/-- Witness for C9: a cookie credential that verifies to user 1, who exists;
the guard proceeds with that user. -/
theorem protect_guard_witness :
    protect (fun s => if s = "tok" then some 1 else none) [⟨1, []⟩]
        ⟨some "tok", none⟩ = .proceed ⟨1, []⟩ := by
  exact (protect_guard (fun s => if s = "tok" then some 1 else none) [⟨1, []⟩]
    ⟨some "tok", none⟩).2.2.2 1 ⟨1, []⟩ (by decide) (by decide) (by decide)

end DriveDoc

namespace DriveDoc

/-- Membership in the fan-out of one document: one attempt per enabled
subscription of the owner. -/
theorem mem_fanOut (users : List UserRec) (send : String → Bool) (doc : Document)
    (kind : NotifKind) (title pb : String) (a : SendAttempt) :
    a ∈ fanOut users send doc kind title pb ↔
      ∃ s ∈ enabledSubs users doc.user,
        a = ⟨doc.id, kind, s.endpoint, title, pb, send s.endpoint⟩ := by
  simp only [fanOut, List.mem_map]
  constructor
  · rintro ⟨s, hs, rfl⟩
    exact ⟨s, hs, rfl⟩
  · rintro ⟨s, hs, rfl⟩
    exact ⟨s, hs, rfl⟩

/-- C6: one scan pass attempts an expired notification exactly for the
documents with `expiryDate <= now` and an expiring-soon notification exactly
for those with `now < expiryDate <= now + soonDays` days, each fanned out to
every enabled subscription of the owner; the two selections are disjoint, and
the attempted deliveries are the same whatever the delivery outcomes are, so
one failed send never suppresses another. -/
theorem notify_scan_selection (docs : List Document) (users : List UserRec)
    (send : String → Bool) (now : Int) (soonDays : Int) :
    (∀ a : SendAttempt, a ∈ notifyExpiredDocuments docs users send now soonDays →
      ∃ d ∈ docs, d.id = a.docId ∧
        (∃ s ∈ enabledSubs users d.user, s.endpoint = a.endpoint) ∧
        ((a.kind = .expired ∧ d.expiryDate ≤ now) ∨
          (a.kind = .expiringSoon ∧ now < d.expiryDate ∧
            d.expiryDate ≤ now + soonDays * msPerDay))) ∧
    (∀ d ∈ docs, ∀ s ∈ enabledSubs users d.user,
      (d.expiryDate ≤ now →
        ∃ a ∈ notifyExpiredDocuments docs users send now soonDays,
          a.docId = d.id ∧ a.kind = .expired ∧ a.endpoint = s.endpoint ∧
          a.delivered = send s.endpoint) ∧
      (now < d.expiryDate → d.expiryDate ≤ now + soonDays * msPerDay →
        ∃ a ∈ notifyExpiredDocuments docs users send now soonDays,
          a.docId = d.id ∧ a.kind = .expiringSoon ∧ a.endpoint = s.endpoint ∧
          a.delivered = send s.endpoint)) ∧
    (∀ d ∈ docs, ¬(d.expiryDate ≤ now ∧ now < d.expiryDate)) ∧
    (∀ send2 : String → Bool,
      (notifyExpiredDocuments docs users send now soonDays).map
          (fun a => (a.docId, a.kind, a.endpoint, a.title, a.payloadBody)) =
        (notifyExpiredDocuments docs users send2 now soonDays).map
          (fun a => (a.docId, a.kind, a.endpoint, a.title, a.payloadBody))) := by
  refine ⟨?_, ?_, ?_, ?_⟩
  · intro a ha
    unfold notifyExpiredDocuments at ha
    rw [List.mem_append] at ha
    rcases ha with ha | ha
    · rw [List.mem_flatMap] at ha
      obtain ⟨d, hd, hin⟩ := ha
      rw [List.mem_filter] at hd
      rw [mem_fanOut] at hin
      obtain ⟨s, hs, rfl⟩ := hin
      refine ⟨d, hd.1, rfl, ⟨s, hs, rfl⟩, Or.inl ⟨rfl, ?_⟩⟩
      simpa using hd.2
    · rw [List.mem_flatMap] at ha
      obtain ⟨d, hd, hin⟩ := ha
      rw [List.mem_filter] at hd
      rw [mem_fanOut] at hin
      obtain ⟨s, hs, rfl⟩ := hin
      have hd2 : now < d.expiryDate ∧ d.expiryDate ≤ now + soonDays * msPerDay := by
        have := hd.2
        simp only [Bool.and_eq_true, decide_eq_true_eq] at this
        exact this
      exact ⟨d, hd.1, rfl, ⟨s, hs, rfl⟩, Or.inr ⟨rfl, hd2.1, hd2.2⟩⟩
  · intro d hd s hs
    constructor
    · intro he
      refine ⟨⟨d.id, .expired, s.endpoint, "Document expired",
          d.dtype ++ " (" ++ d.number ++ ") has expired", send s.endpoint⟩, ?_,
        rfl, rfl, rfl, rfl⟩
      unfold notifyExpiredDocuments
      rw [List.mem_append]
      left
      rw [List.mem_flatMap]
      refine ⟨d, ?_, ?_⟩
      · rw [List.mem_filter]
        exact ⟨hd, by simpa using he⟩
      · rw [mem_fanOut]
        exact ⟨s, hs, rfl⟩
    · intro h1 h2
      refine ⟨⟨d.id, .expiringSoon, s.endpoint, "Document expiring soon",
          d.dtype ++ " (" ++ d.number ++ ") expires on " ++ toString d.expiryDate,
          send s.endpoint⟩, ?_, rfl, rfl, rfl, rfl⟩
      unfold notifyExpiredDocuments
      rw [List.mem_append]
      right
      rw [List.mem_flatMap]
      refine ⟨d, ?_, ?_⟩
      · rw [List.mem_filter]
        refine ⟨hd, ?_⟩
        simp only [Bool.and_eq_true, decide_eq_true_eq]
        exact ⟨h1, h2⟩
      · rw [mem_fanOut]
        exact ⟨s, hs, rfl⟩
  · intro d _ ⟨h1, h2⟩
    omega
  · intro send2
    unfold notifyExpiredDocuments fanOut
    simp [List.map_flatMap, List.map_map, Function.comp_def]

/-- Witness for C6: a single expired document owned by user 9 with one enabled
subscription; even a failing sender yields the attempt. -/
theorem notify_scan_selection_witness :
    ∃ a ∈ notifyExpiredDocuments [⟨1, 9, "NG", "licence", "A1", none, -1, .expired, 0⟩]
        [⟨9, [⟨"ep", "k", true⟩]⟩] (fun _ => false) 0 30,
      a.docId = 1 ∧ a.kind = .expired ∧ a.endpoint = "ep" ∧ a.delivered = false := by
  have h := (notify_scan_selection [⟨1, 9, "NG", "licence", "A1", none, -1, .expired, 0⟩]
      [⟨9, [⟨"ep", "k", true⟩]⟩] (fun _ => false) 0 30).2.1
    ⟨1, 9, "NG", "licence", "A1", none, -1, .expired, 0⟩ (by simp)
    ⟨"ep", "k", true⟩ (by simp [enabledSubs])
  obtain ⟨a, ha, h1, h2, h3, h4⟩ := h.1 (by norm_num)
  exact ⟨a, ha, h1, h2, h3, h4⟩

end DriveDoc
